import Mathlib

/-!
Verification of the flight-data query layer
(`elasticsearch_queries.py` / `script.py`).

The embedding models:
  * JSON-like request/response documents (`Json`),
  * the parameter maps passed to `ElasticsearchQueryBuilder.build_query`
    as ordered association lists (Python dicts preserve insertion order),
  * each entry of the `query_strategies` registry as an invocation
    function that, like a Python `f(**params)` call, rejects unexpected
    keyword arguments and missing required arguments,
  * `build_query` itself: kind validation (raising `ValueError` for an
    unknown kind, outside the `try`), the `size` pop/re-insert with
    default 10, strategy invocation, backend search and response
    formatting inside a catch-all that converts any fault into an
    `(\x7b"error": ...\x7d)` record,
  * `_format_response`, including its faulting behaviour on a null
    response (reading `.body` off `None`).

Faults are modelled as `Except.error` with a descriptive message; the
exact message text of a Python exception is not reproduced verbatim,
only which inputs fault and which succeed.  One modelling choice: JSON
object keys are strings, so a parameter used as a field name must be a
string in the embedding; in Python a non-string field would build an
unserialisable body and fault at the backend call instead — on either
account the call faults inside the catch-all.
-/

/-- JSON-like values: the shape of request documents, response bodies and
parameter values.  `null` models Python `None`. -/
inductive Json where
  | null : Json
  | str : String → Json
  | num : Int → Json
  | bool : Bool → Json
  | arr : List Json → Json
  | obj : List (String × Json) → Json

/-- A Python dict of keyword parameters, in insertion order. -/
abbrev Dict := List (String × Json)

/-- Key lookup on a JSON object (`body[k]` / `k in body` when `body` is a
dict); `none` both for a missing key and for a non-object value. -/
def Json.lookup (j : Json) (k : String) : Option Json :=
  match j with
  | .obj kvs => (kvs.find? (fun kv => kv.1 == k)).map (fun kv => kv.2)
  | _ => none

/-- Lookup of a keyword argument in a parameter map (`params.get(k)`). -/
def getArg (p : Dict) (k : String) : Option Json :=
  (p.find? (fun kv => kv.1 == k)).map (fun kv => kv.2)

/-- Check that every keyword in the map is accepted by a strategy
signature; a Python call `f(**params)` raises `TypeError` otherwise. -/
def allowedKeys (p : Dict) (allowed : List String) : Bool :=
  p.all (fun kv => allowed.contains kv.1)

/-- One optional entry of a dict comprehension filtered with
`if v is not None`: absent or null values contribute nothing. -/
def notNone (k : String) (v : Option Json) : List (String × Json) :=
  match v with
  | none => []
  | some Json.null => []
  | some v => [(k, v)]

/-- Strategy `"match_all"`: `lambda size=10: \x7b"size": size, "query":
\x7b"match_all": \x7b\x7d\x7d\x7d`. -/
def invokeMatchAll (p : Dict) : Except String Json :=
  if allowedKeys p ["size"] then
    let size := (getArg p "size").getD (Json.num 10)
    .ok (Json.obj [("size", size), ("query", Json.obj [("match_all", Json.obj [])])])
  else .error "TypeError: match_all got an unexpected keyword argument"

/-- Strategy `"term"`: `lambda field, value, size=10`, exact-match
predicate on one field. -/
def invokeTerm (p : Dict) : Except String Json :=
  if allowedKeys p ["field", "value", "size"] then
    match getArg p "field", getArg p "value" with
    | some (Json.str field), some value =>
      let size := (getArg p "size").getD (Json.num 10)
      .ok (Json.obj [("size", size), ("query", Json.obj [("term", Json.obj [(field, value)])])])
    | some _, some _ => .error "TypeError: field is not a string key"
    | _, _ => .error "TypeError: term missing a required argument"
  else .error "TypeError: term got an unexpected keyword argument"

/-- Strategy `"match"`: `lambda field, value, size=10`, analysed text
predicate on one field. -/
def invokeMatch (p : Dict) : Except String Json :=
  if allowedKeys p ["field", "value", "size"] then
    match getArg p "field", getArg p "value" with
    | some (Json.str field), some value =>
      let size := (getArg p "size").getD (Json.num 10)
      .ok (Json.obj [("size", size), ("query", Json.obj [("match", Json.obj [(field, value)])])])
    | some _, some _ => .error "TypeError: field is not a string key"
    | _, _ => .error "TypeError: match missing a required argument"
  else .error "TypeError: match got an unexpected keyword argument"

/-- Strategy `"range"`: `lambda field, gte=None, lte=None, size=10`; the
bounds dict comprehension keeps only non-None bounds. -/
def invokeRange (p : Dict) : Except String Json :=
  if allowedKeys p ["field", "gte", "lte", "size"] then
    match getArg p "field" with
    | some (Json.str field) =>
      let size := (getArg p "size").getD (Json.num 10)
      let bounds := notNone "gte" (getArg p "gte") ++ notNone "lte" (getArg p "lte")
      .ok (Json.obj [("size", size), ("query", Json.obj [("range", Json.obj [(field, Json.obj bounds)])])])
    | some _ => .error "TypeError: field is not a string key"
    | none => .error "TypeError: range missing a required argument"
  else .error "TypeError: range got an unexpected keyword argument"

/-- Strategy `"bool"`: `lambda must=None, must_not=None, should=None,
filter=None, size=10`; the clause dict comprehension keeps only
non-None clause lists. -/
def invokeBool (p : Dict) : Except String Json :=
  if allowedKeys p ["must", "must_not", "should", "filter", "size"] then
    let size := (getArg p "size").getD (Json.num 10)
    let clauses := notNone "must" (getArg p "must") ++ notNone "must_not" (getArg p "must_not")
      ++ notNone "should" (getArg p "should") ++ notNone "filter" (getArg p "filter")
    .ok (Json.obj [("size", size), ("query", Json.obj [("bool", Json.obj clauses)])])
  else .error "TypeError: bool got an unexpected keyword argument"

/-- Strategy `"aggs"`: `lambda aggs_type, field, size=0`; bucket name is
the f-string `aggs_type + "_on_" + field`, the terms body is present only
for `aggs_type == "terms"`, and the nested `avg_value` body only for
`aggs_type == "avg"` (on the same `field`). -/
def invokeAggs (p : Dict) : Except String Json :=
  if allowedKeys p ["aggs_type", "field", "size"] then
    match getArg p "aggs_type", getArg p "field" with
    | some (Json.str aggsType), some (Json.str field) =>
      let size := (getArg p "size").getD (Json.num 0)
      let termsBody := if aggsType = "terms" then Json.obj [("field", Json.str field)] else Json.obj []
      let avgBody := if aggsType = "avg" then Json.obj [("avg", Json.obj [("field", Json.str field)])] else Json.obj []
      .ok (Json.obj [("size", size),
        ("aggs", Json.obj [(aggsType ++ "_on_" ++ field,
          Json.obj [("terms", termsBody), ("aggs", Json.obj [("avg_value", avgBody)])])])])
    | some _, some _ => .error "TypeError: aggs_type or field is not a string key"
    | _, _ => .error "TypeError: aggs missing a required argument"
  else .error "TypeError: aggs got an unexpected keyword argument"

/-- Strategy `"sort"`: `lambda field, order="desc", size=10`. -/
def invokeSort (p : Dict) : Except String Json :=
  if allowedKeys p ["field", "order", "size"] then
    match getArg p "field" with
    | some (Json.str field) =>
      let size := (getArg p "size").getD (Json.num 10)
      let order := (getArg p "order").getD (Json.str "desc")
      .ok (Json.obj [("size", size), ("sort", Json.arr [Json.obj [(field, Json.obj [("order", order)])]])])
    | some _ => .error "TypeError: field is not a string key"
    | none => .error "TypeError: sort missing a required argument"
  else .error "TypeError: sort got an unexpected keyword argument"

/-- Keys of the `query_strategies` registry, in source order. -/
def queryStrategyKinds : List String :=
  ["match_all", "term", "match", "range", "bool", "aggs", "sort"]

/-- Dispatch `query_strategies[query_type](**p)`. -/
def invokeStrategy (query_type : String) (p : Dict) : Except String Json :=
  if query_type = "match_all" then invokeMatchAll p
  else if query_type = "term" then invokeTerm p
  else if query_type = "match" then invokeMatch p
  else if query_type = "range" then invokeRange p
  else if query_type = "bool" then invokeBool p
  else if query_type = "aggs" then invokeAggs p
  else if query_type = "sort" then invokeSort p
  else .error ("Unsupported query type: " ++ query_type)

/-- The in-place `size` normalisation of `build_query` on a non-empty
parameter map: `size = params.pop("size", 10); params["size"] = size`.
`pop` removes the key wherever it sits; the re-insert then appends it at
the end of the (now size-free) dict. -/
def sizeNormalize (p : Dict) : Dict :=
  p.filter (fun kv => kv.1 != "size") ++ [("size", (getArg p "size").getD (Json.num 10))]

/-- Request construction of `build_query` after kind validation: with a
truthy (non-empty) parameter map, normalise `size` and invoke the
strategy; with `None` or an empty map, invoke it with no arguments. -/
def buildRequest (query_type : String) (params : Option Dict) : Except String Json :=
  match params with
  | none => invokeStrategy query_type []
  | some p => if p.isEmpty then invokeStrategy query_type [] else invokeStrategy query_type (sizeNormalize p)

/-- Extraction `[hit["_source"] for hit in hits]`; faults on a hit with
no `_source` field. -/
def extractSources : List Json → Except String (List Json)
  | [] => .ok []
  | h :: rest =>
    match h.lookup "_source" with
    | none => .error "KeyError: _source"
    | some s =>
      match extractSources rest with
      | .ok ss => .ok (s :: ss)
      | .error e => .error e

/-- Embedding of `ElasticsearchQueryBuilder._format_response`.  The raw
response is `none` (Python `None`) or `some body` (its decoded `.body`).
On `None` the code reads `.body` off it and faults; otherwise it reads
the total match count and elapsed time, collects the hit sources when a
hit list is present, and appends the aggregations block only when the
body contains one. -/
def formatResponse (response : Option Json) : Except String Json :=
  match response with
  | none => .error "AttributeError: NoneType object has no attribute body"
  | some body =>
    match body.lookup "hits" with
    | none => .error "KeyError: hits"
    | some hitsPart =>
      match (hitsPart.lookup "total").bind (fun t => t.lookup "value") with
      | none => .error "KeyError: total value"
      | some total =>
        match body.lookup "took" with
        | none => .error "KeyError: took"
        | some took =>
          let hitsList :=
            match hitsPart.lookup "hits" with
            | none => Except.ok []
            | some (Json.arr hs) => extractSources hs
            | some _ => Except.error "TypeError: hit list is not iterable"
          match hitsList with
          | .error e => .error e
          | .ok hits =>
            match body.lookup "aggregations" with
            | none => .ok (Json.obj [("total_hits", total), ("took_ms", took), ("hits", Json.arr hits)])
            | some aggsBlock =>
              .ok (Json.obj [("total_hits", total), ("took_ms", took), ("hits", Json.arr hits), ("aggregations", aggsBlock)])

/-- The `try` body of `build_query`: build the request, submit it to the
backend (`search`, which may fault, return `None`, or return a body),
and format the response.  Any `Except.error` is a raised Python
exception. -/
def buildAttempt (search : Json → Except String (Option Json)) (query_type : String)
    (params : Option Dict) : Except String Json :=
  match buildRequest query_type params with
  | .error e => .error e
  | .ok query =>
    match search query with
    | .error e => .error e
    | .ok response => formatResponse response

/-- Embedding of `ElasticsearchQueryBuilder.build_query`.  An unknown
kind raises `ValueError` outside the `try` (an `Except.error` result);
everything else runs inside the catch-all, which turns a fault into the
data record `\x7b"error": <description>\x7d`. -/
def build_query (search : Json → Except String (Option Json)) (query_type : String)
    (params : Option Dict) : Except String Json :=
  if queryStrategyKinds.contains query_type then
    match buildAttempt search query_type params with
    | .ok r => .ok r
    | .error e => .ok (Json.obj [("error", Json.str e)])
  else .error ("Unsupported query type: " ++ query_type)

/-- Parameter map passed by `FlightDataQueries.avg_price_per_carrier`. -/
def avgPricePerCarrierParams : Dict :=
  [("aggs_type", Json.str "terms"), ("field", Json.str "Carrier")]

/-- Catalog method `FlightDataQueries.avg_price_per_carrier`. -/
def avg_price_per_carrier (search : Json → Except String (Option Json)) : Except String Json :=
  build_query search "aggs" (some avgPricePerCarrierParams)

/-- Parameter map passed by `FlightDataQueries.delayed_flight_analysis`. -/
def delayedFlightAnalysisParams (min_delay : Int) : Dict :=
  [("field", Json.str "FlightDelayMin"), ("gte", Json.num min_delay),
   ("size", Json.num 0), ("aggs", Json.bool true)]

/-- Catalog method `FlightDataQueries.delayed_flight_analysis`. -/
def delayed_flight_analysis (search : Json → Except String (Option Json))
    (min_delay : Int) : Except String Json :=
  build_query search "range" (some (delayedFlightAnalysisParams min_delay))

/-- Transcription of the request document the spec scenario claims for
`avg_price_per_carrier()` (from the spec text, for comparison with what
the code builds). -/
def avgPricePerCarrierSpecDoc : Json :=
  Json.obj [("size", Json.num 0),
    ("aggs", Json.obj [("terms_on_Carrier", Json.obj [
      ("terms", Json.obj [("field", Json.str "Carrier")]),
      ("aggs", Json.obj [("avg_value", Json.obj [("avg", Json.obj [("field", Json.str "AvgTicketPrice")])])])])])]

/-! ## Helper definitions and lemmas -/

/-- The value under the key `"size"` of a successfully built request
document (`none` when construction faulted or the key is absent). -/
def requestSize (r : Except String Json) : Option Json :=
  match r with
  | .ok doc => doc.lookup "size"
  | .error _ => none

theorem notNone_absent (k : String) : notNone k none = [] := rfl

theorem notNone_null_value (k : String) : notNone k (some Json.null) = [] := rfl

theorem notNone_some_of_ne_null (k : String) (g : Json) (hg : g ≠ Json.null) :
    notNone k (some g) = [(k, g)] := by
  cases g
  case null => exact absurd rfl hg
  all_goals rfl

theorem filter_ne_size_no_size (p : Dict) :
    (p.filter (fun kv => kv.1 != "size")).find? (fun kv => kv.1 == "size") = none := by
  rw [List.find?_eq_none]
  intro kv hkv
  have h := (List.mem_filter.mp hkv).2
  simp only [bne_iff_ne, ne_eq] at h
  simpa using h

theorem filter_ne_size_idem (p : Dict) :
    (p.filter (fun kv => kv.1 != "size")).filter (fun kv => kv.1 != "size")
      = p.filter (fun kv => kv.1 != "size") :=
  List.filter_eq_self.mpr (fun _ ha => (List.mem_filter.mp ha).2)

/-- The in-place size normalisation is idempotent: re-running
`size = params.pop("size", 10); params["size"] = size` on an
already-normalised map changes nothing. -/
theorem sizeNormalize_idem (p : Dict) :
    sizeNormalize (sizeNormalize p) = sizeNormalize p := by
  unfold sizeNormalize getArg
  rw [List.find?_append, filter_ne_size_no_size]
  rw [List.filter_append, filter_ne_size_idem]
  simp

theorem sizeNormalize_nonempty (p : Dict) : (sizeNormalize p).isEmpty = false := by
  unfold sizeNormalize
  simp

/-! ## Claim theorems -/

/-- Claim C1 (code-bug evidence).  Evaluating the code at the failing
input: `avg_price_per_carrier()` actually builds the request
`size 10` (because `build_query` pops `size` with default 10 and
re-inserts it, overriding the aggs strategy default of 0) with an empty
`avg_value` sub-aggregation body, and this differs from the document the
spec scenario claims (`size 0` with a nested average on
`AvgTicketPrice`). -/
theorem avg_price_per_carrier_request_diverges :
    buildRequest "aggs" (some avgPricePerCarrierParams) =
      Except.ok (Json.obj [("size", Json.num 10),
        ("aggs", Json.obj [("terms_on_Carrier", Json.obj [
          ("terms", Json.obj [("field", Json.str "Carrier")]),
          ("aggs", Json.obj [("avg_value", Json.obj [])])])])]) ∧
    buildRequest "aggs" (some avgPricePerCarrierParams) ≠ Except.ok avgPricePerCarrierSpecDoc := by
  refine ⟨rfl, ?_⟩
  intro h
  simp [buildRequest, avgPricePerCarrierParams, sizeNormalize, invokeStrategy, invokeAggs,
    allowedKeys, getArg, avgPricePerCarrierSpecDoc] at h

/-- Claim C2.  For every supported query kind, building with a minimal
valid parameter set yields a request document containing the key
`"size"` with value 10 when the caller supplied none, and an explicit
`size` of 0 is honoured as an override, for arbitrary field, aggregation
type and value parameters. -/
theorem size_present_and_defaults_to_ten (f t : String) (value : Json) :
    requestSize (buildRequest "match_all" none) = some (Json.num 10) ∧
    requestSize (buildRequest "term" (some [("field", Json.str f), ("value", value)])) = some (Json.num 10) ∧
    requestSize (buildRequest "match" (some [("field", Json.str f), ("value", value)])) = some (Json.num 10) ∧
    requestSize (buildRequest "range" (some [("field", Json.str f)])) = some (Json.num 10) ∧
    requestSize (buildRequest "bool" none) = some (Json.num 10) ∧
    requestSize (buildRequest "aggs" (some [("aggs_type", Json.str t), ("field", Json.str f)])) = some (Json.num 10) ∧
    requestSize (buildRequest "sort" (some [("field", Json.str f)])) = some (Json.num 10) ∧
    requestSize (buildRequest "match_all" (some [("size", Json.num 0)])) = some (Json.num 0) ∧
    requestSize (buildRequest "term" (some [("field", Json.str f), ("value", value), ("size", Json.num 0)])) = some (Json.num 0) ∧
    requestSize (buildRequest "match" (some [("field", Json.str f), ("value", value), ("size", Json.num 0)])) = some (Json.num 0) ∧
    requestSize (buildRequest "range" (some [("field", Json.str f), ("size", Json.num 0)])) = some (Json.num 0) ∧
    requestSize (buildRequest "bool" (some [("size", Json.num 0)])) = some (Json.num 0) ∧
    requestSize (buildRequest "aggs" (some [("aggs_type", Json.str t), ("field", Json.str f), ("size", Json.num 0)])) = some (Json.num 0) ∧
    requestSize (buildRequest "sort" (some [("field", Json.str f), ("size", Json.num 0)])) = some (Json.num 0) := by
  simp [requestSize, buildRequest, sizeNormalize, invokeStrategy, invokeMatchAll, invokeTerm,
    invokeMatch, invokeRange, invokeBool, invokeAggs, invokeSort, allowedKeys, getArg, Json.lookup]

/-- Claim C3 (code-bug evidence).  `_format_response` applied to a null
raw response does not return the claimed ErrorRecord: it reads the
`body` attribute off the null response and faults; only the catch-all
inside `build_query` then converts that fault into an ErrorRecord, whose
message is the attribute-access description and not "no response
received". -/
theorem formatResponse_null_faults :
    formatResponse none = Except.error "AttributeError: NoneType object has no attribute body" ∧
    (∀ e, formatResponse none ≠ Except.ok (Json.obj [("error", Json.str e)])) ∧
    build_query (fun _ => Except.ok none) "match_all" none =
      Except.ok (Json.obj [("error",
        Json.str "AttributeError: NoneType object has no attribute body")]) := by
  refine ⟨rfl, ?_, rfl⟩
  intro e h
  simp [formatResponse] at h

/-- Claim C4.  For every kind present in the strategy registry and every
backend behaviour and parameter map, `build_query` never lets an
exception propagate: it always returns a value, and whenever the guarded
pipeline (strategy invocation, backend search, response formatting)
faults with description `e`, the returned value is the ErrorRecord
`\x7b"error": e\x7d`. -/
theorem build_query_catches_all_failures (search : Json → Except String (Option Json))
    (query_type : String) (params : Option Dict) (h : query_type ∈ queryStrategyKinds) :
    (∃ r, build_query search query_type params = Except.ok r) ∧
    (∀ e, buildAttempt search query_type params = Except.error e →
      build_query search query_type params = Except.ok (Json.obj [("error", Json.str e)])) := by
  have hc : queryStrategyKinds.contains query_type = true := by simpa using h
  unfold build_query
  rw [hc]
  constructor
  · cases hA : buildAttempt search query_type params with
    | ok r => exact ⟨r, by simp [hA]⟩
    | error e => exact ⟨Json.obj [("error", Json.str e)], by simp [hA]⟩
  · intro e he
    simp [he]

/-- Witness for C4: a registered kind with an unreachable backend still
yields a returned value, not a raised fault. -/
theorem build_query_catches_all_failures_witness :
    ("range" ∈ queryStrategyKinds) ∧
    ((∃ r, build_query (fun _ => Except.error "ConnectionError: backend unreachable") "range"
        (some [("field", Json.str "AvgTicketPrice"), ("gte", Json.num 200)]) = Except.ok r) ∧
     (∀ e, buildAttempt (fun _ => Except.error "ConnectionError: backend unreachable") "range"
        (some [("field", Json.str "AvgTicketPrice"), ("gte", Json.num 200)]) = Except.error e →
      build_query (fun _ => Except.error "ConnectionError: backend unreachable") "range"
        (some [("field", Json.str "AvgTicketPrice"), ("gte", Json.num 200)]) =
          Except.ok (Json.obj [("error", Json.str e)]))) :=
  ⟨by decide,
   build_query_catches_all_failures (fun _ => Except.error "ConnectionError: backend unreachable")
     "range" (some [("field", Json.str "AvgTicketPrice"), ("gte", Json.num 200)]) (by decide)⟩

/-- Claim C5.  For every kind absent from the strategy registry and
every backend behaviour and parameter map, `build_query` raises the
`ValueError` immediately (an `Except.error` outcome), which is never
equal to any successful envelope outcome. -/
theorem unsupported_kind_is_hard_error (search : Json → Except String (Option Json))
    (query_type : String) (params : Option Dict) (h : query_type ∉ queryStrategyKinds) :
    build_query search query_type params = Except.error ("Unsupported query type: " ++ query_type) ∧
    (∀ r, build_query search query_type params ≠ Except.ok r) := by
  have hc : queryStrategyKinds.contains query_type = false := by simpa using h
  unfold build_query
  rw [hc]
  exact ⟨rfl, fun r h => Except.noConfusion h⟩

/-- Witness for C5: the kind "nonexistent" with an arbitrary backend and
an arbitrary parameter map is rejected up front. -/
theorem unsupported_kind_is_hard_error_witness :
    ("nonexistent" ∉ queryStrategyKinds) ∧
    (build_query (fun _ => Except.ok none) "nonexistent" none =
        Except.error ("Unsupported query type: " ++ "nonexistent") ∧
     (∀ r, build_query (fun _ => Except.ok none) "nonexistent" none ≠ Except.ok r)) :=
  ⟨by decide,
   unsupported_kind_is_hard_error (fun _ => Except.ok none) "nonexistent" none (by decide)⟩

/-- Claim C6.  A Range request built with a non-null `gte` bound and no
`lte` bound serialises exactly the `gte` key inside the range predicate
— also when `lte` is supplied explicitly as null — and the resulting
bounds object answers `gte` and not `lte`. -/
theorem range_gte_without_lte (f : String) (g : Json) (hg : g ≠ Json.null) :
    buildRequest "range" (some [("field", Json.str f), ("gte", g)]) =
      Except.ok (Json.obj [("size", Json.num 10),
        ("query", Json.obj [("range", Json.obj [(f, Json.obj [("gte", g)])])])]) ∧
    buildRequest "range" (some [("field", Json.str f), ("gte", g), ("lte", Json.null)]) =
      Except.ok (Json.obj [("size", Json.num 10),
        ("query", Json.obj [("range", Json.obj [(f, Json.obj [("gte", g)])])])]) ∧
    (Json.obj [("gte", g)]).lookup "gte" = some g ∧
    (Json.obj [("gte", g)]).lookup "lte" = none := by
  have hne := notNone_some_of_ne_null "gte" g hg
  refine ⟨?_, ?_, ?_, ?_⟩ <;>
    simp [buildRequest, sizeNormalize, invokeStrategy, invokeRange, allowedKeys, getArg,
      Json.lookup, notNone_absent, notNone_null_value, hne]

/-- Witness for C6 at the price-range field with bound 200. -/
theorem range_gte_without_lte_witness :
    (Json.num 200 ≠ Json.null) ∧
    buildRequest "range" (some [("field", Json.str "AvgTicketPrice"), ("gte", Json.num 200)]) =
      Except.ok (Json.obj [("size", Json.num 10),
        ("query", Json.obj [("range", Json.obj [("AvgTicketPrice", Json.obj [("gte", Json.num 200)])])])]) :=
  ⟨fun h => Json.noConfusion h,
   (range_gte_without_lte "AvgTicketPrice" (Json.num 200) (fun h => Json.noConfusion h)).1⟩

/-- Claim C7.  A Bool request built with only a `should` clause list
yields a bool object containing exactly the `should` key; the keys
`must`, `must_not` and `filter` are absent. -/
theorem bool_should_only (xs : List Json) :
    buildRequest "bool" (some [("should", Json.arr xs)]) =
      Except.ok (Json.obj [("size", Json.num 10),
        ("query", Json.obj [("bool", Json.obj [("should", Json.arr xs)])])]) ∧
    (Json.obj [("should", Json.arr xs)]).lookup "should" = some (Json.arr xs) ∧
    (Json.obj [("should", Json.arr xs)]).lookup "must" = none ∧
    (Json.obj [("should", Json.arr xs)]).lookup "must_not" = none ∧
    (Json.obj [("should", Json.arr xs)]).lookup "filter" = none := by
  refine ⟨rfl, ?_, ?_, ?_, ?_⟩ <;> simp [Json.lookup]

/-- Claim C8.  For every backend response body reporting zero total
hits, an empty hit list and no aggregations block, the normaliser
returns exactly the envelope with `total_hits` 0, the reported elapsed
time, an empty `hits` list, and no `aggregations` key. -/
theorem formatResponse_zero_hits_no_aggregations (body hitsPart took : Json)
    (h1 : body.lookup "hits" = some hitsPart)
    (h2 : (hitsPart.lookup "total").bind (fun t => t.lookup "value") = some (Json.num 0))
    (h3 : hitsPart.lookup "hits" = some (Json.arr []))
    (h4 : body.lookup "took" = some took)
    (h5 : body.lookup "aggregations" = none) :
    formatResponse (some body) =
      Except.ok (Json.obj [("total_hits", Json.num 0), ("took_ms", took), ("hits", Json.arr [])]) ∧
    (Json.obj [("total_hits", Json.num 0), ("took_ms", took), ("hits", Json.arr [])]).lookup "aggregations" = none := by
  constructor
  · simp [formatResponse, h1, h2, h3, h4, h5, extractSources]
  · simp [Json.lookup]

/-- Witness for C8 on a concrete empty response body taking 5 ms. -/
theorem formatResponse_zero_hits_no_aggregations_witness :
    ((Json.obj [("took", Json.num 5),
        ("hits", Json.obj [("total", Json.obj [("value", Json.num 0)]), ("hits", Json.arr [])])]).lookup "hits" =
      some (Json.obj [("total", Json.obj [("value", Json.num 0)]), ("hits", Json.arr [])])) ∧
    formatResponse (some (Json.obj [("took", Json.num 5),
        ("hits", Json.obj [("total", Json.obj [("value", Json.num 0)]), ("hits", Json.arr [])])])) =
      Except.ok (Json.obj [("total_hits", Json.num 0), ("took_ms", Json.num 5), ("hits", Json.arr [])]) :=
  ⟨rfl,
   (formatResponse_zero_hits_no_aggregations
     (Json.obj [("took", Json.num 5),
       ("hits", Json.obj [("total", Json.obj [("value", Json.num 0)]), ("hits", Json.arr [])])])
     (Json.obj [("total", Json.obj [("value", Json.num 0)]), ("hits", Json.arr [])])
     (Json.num 5) rfl rfl rfl rfl rfl).1⟩

/-- Claim C9.  Request construction is deterministic and idempotent: the
only state `build_query` mutates is the parameter map itself (the `size`
pop/re-insert, modelled by `sizeNormalize`), that mutation is idempotent,
and re-invoking the builder on the mutated map produces the identical
request document, for every kind and non-empty parameter map. -/
theorem request_construction_idempotent (query_type : String) (p : Dict) (hp : p ≠ []) :
    buildRequest query_type (some (sizeNormalize p)) = buildRequest query_type (some p) ∧
    sizeNormalize (sizeNormalize p) = sizeNormalize p := by
  refine ⟨?_, sizeNormalize_idem p⟩
  have h2 : p.isEmpty = false := by
    cases p with
    | nil => exact absurd rfl hp
    | cons a t => rfl
  simp only [buildRequest]
  rw [h2, sizeNormalize_nonempty, sizeNormalize_idem]

/-- Witness for C9 on the carrier-filter parameters. -/
theorem request_construction_idempotent_witness :
    ([("field", Json.str "Carrier"), ("value", Json.str "ES-Air")] ≠ ([] : Dict)) ∧
    buildRequest "term" (some (sizeNormalize [("field", Json.str "Carrier"), ("value", Json.str "ES-Air")])) =
      buildRequest "term" (some [("field", Json.str "Carrier"), ("value", Json.str "ES-Air")]) :=
  ⟨fun h => List.noConfusion h,
   (request_construction_idempotent "term" [("field", Json.str "Carrier"), ("value", Json.str "ES-Air")]
     (fun h => List.noConfusion h)).1⟩

/-- Claim C10.  For every minimum-delay value and every backend
behaviour, `delayed_flight_analysis` returns the ErrorRecord produced by
the catch-all: the `"aggs"` keyword it passes is not accepted by the
range strategy, so request construction already faults (before any
backend call — the result does not depend on `search`) and no envelope
is ever returned. -/
theorem delayed_flight_analysis_always_error_record
    (search : Json → Except String (Option Json)) (min_delay : Int) :
    delayed_flight_analysis search min_delay =
      Except.ok (Json.obj [("error", Json.str "TypeError: range got an unexpected keyword argument")]) ∧
    buildRequest "range" (some (delayedFlightAnalysisParams min_delay)) =
      Except.error "TypeError: range got an unexpected keyword argument" :=
  ⟨rfl, rfl⟩
